import Mathlib

/-
Verification of the job-orchestration core of video_workflow_server.py.

The embedding models the code at the granularity of asyncio suspension
points: between two awaits, Python code runs without preemption, so each
atomic block of the pipeline becomes one transition of a step function.
The per-job transition system covers WorkflowServer._worker,
WorkflowServer._process_job, WorkflowServer.queue_job and
WorkflowServer.cancel_job; separate functional models cover the worker
exception handling, the HTTP cancel route, WorkflowServer._cleanup_task
and WorkflowServer._generate_workflow.
-/

namespace VideoWorkflow

/-- JobStatus enum (video_workflow_server.py lines 49-55). -/
inductive JobStatus
  | pending
  | uploading
  | processing
  | completed
  | failed
  | cancelled
  deriving DecidableEq, Repr

/-- The spec calls Completed, Failed and Cancelled terminal. -/
def JobStatus.isTerminal : JobStatus → Bool
  | .completed => true
  | .failed => true
  | .cancelled => true
  | _ => false

/-- The status check of cancel_job (line 430): a job is cancellable while
its status is Pending, Uploading or Processing. -/
def JobStatus.isCancellable : JobStatus → Bool
  | .pending => true
  | .uploading => true
  | .processing => true
  | _ => false

/-- VideoFormat enum (lines 57-60). -/
inductive VideoFormat
  | mp4
  | webm
  | gif
  deriving DecidableEq, Repr

/-- WorkflowConfig (lines 62-69). -/
structure WorkflowConfig where
  positive_prompt : String
  negative_prompt : String
  seed : Int
  randomize_seed : Bool
  fps : Nat
  duration : Nat
  format : VideoFormat
  deriving DecidableEq, Repr

/-- A small JSON-like value type for ComfyUI workflow descriptions. -/
inductive JValue
  | jnum (q : ℚ)
  | jstr (s : String)
  | jarr (xs : List JValue)
  | jobj (fields : List (String × JValue))

/-- _get_default_workflow (lines 259-277): the fixed built-in workflow
dictionary returned by the server. -/
def get_default_workflow : JValue :=
  .jobj [("3", .jobj [
    ("inputs", .jobj [
      ("seed", .jnum 88888),
      ("steps", .jnum 20),
      ("cfg", .jnum 7),
      ("sampler_name", .jstr "euler"),
      ("scheduler", .jstr "normal"),
      ("denoise", .jnum 1),
      ("model", .jarr [.jstr "4", .jnum 0]),
      ("positive", .jarr [.jstr "6", .jnum 0]),
      ("negative", .jarr [.jstr "7", .jnum 0]),
      ("latent_image", .jarr [.jstr "5", .jnum 0])]),
    ("class_type", .jstr "KSampler")])]

/-- _generate_workflow (lines 238-257). The check whether
services/workflowTemplate.ts exists and the millisecond clock are
environment inputs. Both branches of the template check yield the default
workflow; the seed is computed (line 253) but never written into the
returned dictionary; image_filename and the rest of the config are never
read. -/
def generate_workflow (templateFileExists : Bool) (nowMs : Nat)
    (image_filename : String) (config : WorkflowConfig) : JValue :=
  let workflow := if templateFileExists then get_default_workflow else get_default_workflow
  let seedComputed : Int :=
    if !config.randomize_seed then config.seed else ((nowMs % 1000000 : Nat) : Int)
  let _ := seedComputed
  workflow

/-- A file on disk as the cleanup task sees it: a path and a
last-modification time (seconds, as an integer). -/
structure FsFile where
  path : String
  mtime : Int
  deriving DecidableEq, Repr

/-- The state _cleanup_task can touch: the two directories it scans and
the job registry (which it never references). -/
structure ServerDirs where
  uploadFiles : List FsFile
  outputFiles : List FsFile
  jobs : List (String × JobStatus)
  deriving DecidableEq, Repr

/-- cutoff_time of one cleanup cycle (line 365):
time.time() - cleanup_days * 24 * 3600. -/
def cleanupCutoff (now cleanupDays : Int) : Int :=
  now - cleanupDays * 24 * 3600

/-- One iteration of the while-loop body of _cleanup_task (lines 363-377):
every file in the upload and output directories whose mtime is strictly
below the cutoff is unlinked; self.jobs is never read or written. -/
def cleanupSweep (now cleanupDays : Int) (s : ServerDirs) : ServerDirs :=
  let cutoff := cleanupCutoff now cleanupDays
  { uploadFiles := s.uploadFiles.filter (fun f => !(decide (f.mtime < cutoff))),
    outputFiles := s.outputFiles.filter (fun f => !(decide (f.mtime < cutoff))),
    jobs := s.jobs }

/-- Outcome of awaiting the per-job processing task inside _worker. -/
inductive TaskOutcome
  | ok
  | error (msg : String)
  | cancelledErr
  deriving DecidableEq, Repr

/-- Whether an escaping outcome is caught by an except-Exception handler.
Ordinary exceptions derive from Exception; asyncio.CancelledError derives
only from BaseException (Python 3.8 and later), so except Exception does
not catch it. -/
def catchesExc : TaskOutcome → Bool
  | .error _ => true
  | _ => false

/-- Result of the inner try block of _worker (lines 153-159) around
await task: either control falls through to the next loop iteration or an
exception escapes the handler (the finally clause runs either way). -/
inductive InnerResult
  | fallsThrough
  | escapes (e : TaskOutcome)
  deriving DecidableEq, Repr

def innerTry (outcome : TaskOutcome) : InnerResult :=
  match outcome with
  | .ok => .fallsThrough
  | e => if catchesExc e then .fallsThrough else .escapes e

/-- What the worker loop does after one iteration body. -/
inductive WorkerNext
  | nextIteration
  | terminated
  deriving DecidableEq, Repr

/-- One iteration of the while-True body of _worker (lines 142-163),
given whether the dequeued identifier was found in self.jobs and the
outcome of the processing task. A missing identifier is skipped by the
continue on line 147. An exception escaping the inner try is offered to
the outer except Exception (line 161); if that does not catch it either,
it escapes the while loop and the worker coroutine terminates. -/
def workerIteration (jobFound : Bool) (outcome : TaskOutcome) : WorkerNext :=
  if jobFound = false then
    .nextIteration
  else
    match innerTry outcome with
    | .fallsThrough => .nextIteration
    | .escapes e => if catchesExc e then .nextIteration else .terminated

/-- self.jobs.get on the store model. -/
def lookupJob (jobs : List (String × JobStatus)) (jobId : String) : Option JobStatus :=
  (jobs.find? (fun p => p.fst == jobId)).map Prod.snd

/-- Assignment job.status = st for the entry with the given id. -/
def setJobStatus (jobs : List (String × JobStatus)) (jobId : String)
    (st : JobStatus) : List (String × JobStatus) :=
  jobs.map (fun p => if p.fst == jobId then (p.fst, st) else p)

/-- cancel_job (lines 426-448) restricted to its store-visible effect:
it succeeds exactly when the id is known and the status is Pending,
Uploading or Processing, in which case the status becomes Cancelled;
otherwise it returns False and changes nothing. -/
def cancel_job (jobs : List (String × JobStatus)) (jobId : String) :
    Bool × List (String × JobStatus) :=
  match lookupJob jobs jobId with
  | none => (false, jobs)
  | some st =>
      if st.isCancellable then (true, setJobStatus jobs jobId .cancelled)
      else (false, jobs)

/-- The DELETE /api/jobs/{job_id} route (lines 526-532): a False result
from cancel_job is mapped to one single HTTP 404 error, used both for an
unknown id and for a job in a terminal state. -/
def cancel_job_route (jobs : List (String × JobStatus)) (jobId : String) :
    Except (Nat × String) String :=
  if (cancel_job jobs jobId).fst then .ok "cancelled"
  else .error (404, "Job not found or cannot be cancelled")

/-- Where the coroutine processing one job is suspended. Between two
suspension points the Python code runs atomically. -/
inductive PC
  | idle
  | created
  | awaitUpload
  | awaitSubmit
  | polling (elapsed : Nat)
  | awaitDownload
  | retryDelay
  deriving DecidableEq, Repr

/-- The observable state of one job: the Job dataclass fields
(lines 71-87, timestamps reduced to set or not set) together with the
bookkeeping that determines which steps are possible: the position of the
owning coroutine, whether the id sits in job_queue, whether a cancel_job
call is suspended at its backend DELETE, whether task.cancel has been
called but the CancelledError not yet delivered, and a ghost counter of
started pipeline attempts. -/
structure JobState where
  status : JobStatus
  progress : ℚ
  comfyPromptId : Option String
  resultPath : Option String
  errorMessage : Option String
  startedAt : Bool
  completedAt : Bool
  retryCount : Nat
  pc : PC
  inQueue : Bool
  cancelInFlight : Bool
  cancelPending : Bool
  attempts : Nat
  deriving DecidableEq, Repr

/-- The job as create_job leaves it (lines 398-408): status Pending,
progress 0, id already put on the queue. -/
def initialJob : JobState :=
  { status := .pending
    progress := 0
    comfyPromptId := none
    resultPath := none
    errorMessage := none
    startedAt := false
    completedAt := false
    retryCount := 0
    pc := .idle
    inQueue := true
    cancelInFlight := false
    cancelPending := false
    attempts := 0 }

/-- The atomic steps of the system: worker and pipeline steps of
_worker and _process_job, the retry re-enqueue, and the pieces of
cancel_job. -/
inductive Action
  | dequeue
  | beginProcess
  | uploadOk
  | uploadFail (msg : String)
  | submitOk (pid : String)
  | submitFail (msg : String)
  | pollContinue
  | pollDone
  | pollTimeout
  | downloadOk (path : String)
  | downloadFail (msg : String)
  | requeue
  | cancelRequest
  | cancelBackendDone
  | cancelDeliver
  deriving DecidableEq, Repr

/-- Progress written by one polling iteration (line 309):
50 + min(30, elapsed / max_wait * 30) with max_wait = 300. -/
def pollProgress (elapsed : Nat) : ℚ :=
  50 + min 30 ((elapsed : ℚ) / 300 * 30)

/-- The except branch of _process_job (lines 204-214): status becomes
Failed and error_message records the exception; if retry_count is still
below max_retries it is incremented and the coroutine suspends in the
retry sleep, otherwise the coroutine just ends. -/
def failTransition (maxRetries : Nat) (msg : String) (s : JobState) : JobState :=
  let s1 := { s with status := JobStatus.failed, errorMessage := some msg }
  if s1.retryCount < maxRetries then
    { s1 with retryCount := s1.retryCount + 1, pc := PC.retryDelay }
  else
    { s1 with pc := PC.idle }

/-- The synchronous front of cancel_job (lines 426-445): if the status is
cancellable it is set to Cancelled at once; then, if a comfy_prompt_id
exists, the call suspends at the backend DELETE before reaching
task.cancel (modelled by cancelInFlight); otherwise task.cancel runs
immediately and marks the processing coroutine for cancellation when one
exists. -/
def cancelStep (s : JobState) : JobState :=
  if s.status.isCancellable then
    let s1 := { s with status := JobStatus.cancelled }
    if s1.comfyPromptId.isSome then
      { s1 with cancelInFlight := true }
    else if s1.pc = PC.idle then s1
    else { s1 with cancelPending := true }
  else s

/-- The Boolean cancel_job returns for this job (line 447 against 448). -/
def cancelResult (s : JobState) : Bool :=
  s.status.isCancellable

/-- One atomic step of the system. Returns none when the action is not
enabled in the given state. Pipeline actions require cancelPending to be
false: once task.cancel has been called the coroutine resumes only with
CancelledError (cancelDeliver), which _process_job does not catch because
except Exception does not match CancelledError. -/
def step (maxRetries : Nat) (s : JobState) : Action → Option JobState
  | .dequeue =>
      -- _worker lines 144-151: get an id off the queue, find the job,
      -- create the _process_job task; the body has not run yet.
      if s.inQueue = true ∧ s.pc = PC.idle then
        some { s with inQueue := false, pc := PC.created }
      else none
  | .beginProcess =>
      -- _process_job lines 169-176 up to the first await inside
      -- _upload_to_comfyui.
      if s.pc = PC.created ∧ s.cancelPending = false then
        some { s with status := JobStatus.uploading, startedAt := true,
                      progress := 10, pc := PC.awaitUpload,
                      attempts := s.attempts + 1 }
      else none
  | .uploadOk =>
      -- lines 177-185: progress 30, workflow generation, progress 40,
      -- status Processing, then the await of the submit POST.
      if s.pc = PC.awaitUpload ∧ s.cancelPending = false then
        let s30 := { s with progress := 30 }
        some { s30 with progress := 40, status := JobStatus.processing,
                        pc := PC.awaitSubmit }
      else none
  | .uploadFail msg =>
      if s.pc = PC.awaitUpload ∧ s.cancelPending = false then
        some (failTransition maxRetries msg s)
      else none
  | .submitOk pid =>
      -- lines 185-187 and entry of _wait_for_completion up to its first
      -- GET await with elapsed 0.
      if s.pc = PC.awaitSubmit ∧ s.cancelPending = false then
        some { s with comfyPromptId := some pid, progress := 50,
                      pc := PC.polling 0 }
      else none
  | .submitFail msg =>
      if s.pc = PC.awaitSubmit ∧ s.cancelPending = false then
        some (failTransition maxRetries msg s)
      else none
  | .pollContinue =>
      -- lines 300-310, not yet completed: write the progress, sleep 2,
      -- re-check the loop condition and suspend at the next GET.
      match s.pc with
      | PC.polling e =>
          if e + 2 < 300 ∧ s.cancelPending = false then
            some { s with progress := pollProgress e, pc := PC.polling (e + 2) }
          else none
      | _ => none
  | .pollDone =>
      -- backend reports completed: return from _wait_for_completion,
      -- progress 80 (line 191), suspend at the first GET of
      -- _download_result.
      match s.pc with
      | PC.polling _ =>
          if s.cancelPending = false then
            some { s with progress := 80, pc := PC.awaitDownload }
          else none
      | _ => none
  | .pollTimeout =>
      -- not completed and the budget is exhausted after the sleep: the
      -- loop exits and TimeoutError is raised (line 312).
      match s.pc with
      | PC.polling e =>
          if 300 ≤ e + 2 ∧ s.cancelPending = false then
            some (failTransition maxRetries "ComfyUI execution timeout"
                    { s with progress := pollProgress e })
          else none
      | _ => none
  | .downloadOk path =>
      -- lines 194-202: result_path, progress 100, status Completed,
      -- completed_at; the coroutine returns.
      if s.pc = PC.awaitDownload ∧ s.cancelPending = false then
        some { s with resultPath := some path, progress := 100,
                      status := JobStatus.completed, completedAt := true,
                      pc := PC.idle }
      else none
  | .downloadFail msg =>
      if s.pc = PC.awaitDownload ∧ s.cancelPending = false then
        some (failTransition maxRetries msg s)
      else none
  | .requeue =>
      -- end of the retry sleep (line 213) followed by queue_job
      -- (lines 413-416): the id is put back on the queue and the
      -- coroutine ends.
      if s.pc = PC.retryDelay ∧ s.cancelPending = false then
        some { s with pc := PC.idle, inQueue := true }
      else none
  | .cancelRequest =>
      -- a DELETE /api/jobs/{id} call arriving at this suspension point.
      some (cancelStep s)
  | .cancelBackendDone =>
      -- cancel_job resumes after its backend DELETE (lines 436-441) and
      -- runs task.cancel when a processing task is registered.
      if s.cancelInFlight = true then
        some (if s.pc = PC.idle then { s with cancelInFlight := false }
              else { s with cancelInFlight := false, cancelPending := true })
      else none
  | .cancelDeliver =>
      -- CancelledError is delivered at the suspension point of the
      -- processing coroutine; except Exception in _process_job does not
      -- catch it, so the coroutine dies with no further field writes.
      if s.cancelPending = true then
        some { s with pc := PC.idle, cancelPending := false }
      else none

/-- One step of the system, as a relation. -/
def Step (maxRetries : Nat) (s s' : JobState) : Prop :=
  ∃ a, step maxRetries s a = some s'

/-- States of one job reachable from creation under any interleaving of
worker, retry and cancellation steps. -/
def Reachable (maxRetries : Nat) : JobState → Prop :=
  Relation.ReflTransGen (Step maxRetries) initialJob

/-- Trail A: an upload that always fails, with max_retries = 3.
After dequeue: the task exists but its body has not run. -/
def aState1 : JobState := { initialJob with inQueue := false, pc := PC.created }

/-- Trail A, attempt 1 running: status Uploading, progress 10. -/
def aState2 : JobState :=
  { aState1 with status := JobStatus.uploading, startedAt := true,
                 progress := 10, pc := PC.awaitUpload, attempts := 1 }

/-- Trail A: the first upload failed; retry 1 scheduled, coroutine in the
retry sleep. -/
def aState3 : JobState :=
  { aState2 with status := JobStatus.failed, errorMessage := some "boom",
                 retryCount := 1, pc := PC.retryDelay }

/-- Trail A: re-enqueued after the first retry delay. -/
def aState4 : JobState := { aState3 with pc := PC.idle, inQueue := true }

/-- Trail A: dequeued for attempt 2, body not yet running; the status is
still the terminal-looking Failed of attempt 1. -/
def aState5 : JobState := { aState4 with inQueue := false, pc := PC.created }

/-- Trail A: attempt 2 running, Uploading again. -/
def aState6 : JobState :=
  { aState5 with status := JobStatus.uploading, pc := PC.awaitUpload,
                 attempts := 2 }

/-- Trail A: second upload failure, retry 2 scheduled. -/
def aState7 : JobState :=
  { aState6 with status := JobStatus.failed, retryCount := 2,
                 pc := PC.retryDelay }

/-- Trail A: re-enqueued after the second retry delay. -/
def aState8 : JobState := { aState7 with pc := PC.idle, inQueue := true }

/-- Trail A: dequeued for attempt 3. -/
def aState9 : JobState := { aState8 with inQueue := false, pc := PC.created }

/-- Trail A: attempt 3 running. -/
def aState10 : JobState :=
  { aState9 with status := JobStatus.uploading, pc := PC.awaitUpload,
                 attempts := 3 }

/-- Trail A: third upload failure, retry 3 scheduled. -/
def aState11 : JobState :=
  { aState10 with status := JobStatus.failed, retryCount := 3,
                  pc := PC.retryDelay }

/-- Trail A: re-enqueued after the third retry delay. -/
def aState12 : JobState := { aState11 with pc := PC.idle, inQueue := true }

/-- Trail A: dequeued for attempt 4. -/
def aState13 : JobState := { aState12 with inQueue := false, pc := PC.created }

/-- Trail A: attempt 4 running. -/
def aState14 : JobState :=
  { aState13 with status := JobStatus.uploading, pc := PC.awaitUpload,
                  attempts := 4 }

/-- Trail A: the fourth upload failure finds retry_count = max_retries, so
the job stays Failed, the coroutine ends and nothing is re-enqueued. -/
def aState15 : JobState :=
  { aState14 with status := JobStatus.failed, pc := PC.idle }

/-- Trail B: a run whose first attempt fails at submission (after the
upload succeeded, progress 40) and whose second attempt completes.
Attempt 1 after the successful upload. -/
def bState3 : JobState :=
  { aState2 with progress := 40, status := JobStatus.processing,
                 pc := PC.awaitSubmit }

/-- Trail B: submission failed, retry 1 scheduled; progress is still 40. -/
def bState4 : JobState :=
  { bState3 with status := JobStatus.failed, errorMessage := some "sub",
                 retryCount := 1, pc := PC.retryDelay }

/-- Trail B: re-enqueued. -/
def bState5 : JobState := { bState4 with pc := PC.idle, inQueue := true }

/-- Trail B: dequeued for attempt 2 with progress still 40. -/
def bState6 : JobState := { bState5 with inQueue := false, pc := PC.created }

/-- Trail B: attempt 2 begins and resets progress from 40 down to 10
while setting the non-terminal status Uploading. -/
def bState7 : JobState :=
  { bState6 with status := JobStatus.uploading, progress := 10,
                 pc := PC.awaitUpload, attempts := 2 }

/-- Trail B: attempt 2 upload succeeded. -/
def bState8 : JobState :=
  { bState7 with progress := 40, status := JobStatus.processing,
                 pc := PC.awaitSubmit }

/-- Trail B: attempt 2 submitted; polling with elapsed 0. -/
def bState9 : JobState :=
  { bState8 with comfyPromptId := some "p1", progress := 50,
                 pc := PC.polling 0 }

/-- Trail B: backend reported completion; about to download. -/
def bState10 : JobState :=
  { bState9 with progress := 80, pc := PC.awaitDownload }

/-- Trail B: attempt 2 completed. The error_message of the failed first
attempt is still present because no code path ever clears it. -/
def bState11 : JobState :=
  { bState10 with resultPath := some "out.mp4", progress := 100,
                  status := JobStatus.completed, completedAt := true,
                  pc := PC.idle }

/-- The inductive invariant of the per-job transition system. -/
structure Inv (maxRetries : Nat) (s : JobState) : Prop where
  retry_le : s.retryCount ≤ maxRetries
  queue_idle : s.inQueue = true → s.pc = PC.idle
  pending_not_idle : s.cancelPending = true → s.pc ≠ PC.idle
  upload_pr : s.pc = PC.awaitUpload → s.progress = 10
  submit_pr : s.pc = PC.awaitSubmit → s.progress = 40
  poll_pr : ∀ e, s.pc = PC.polling e → s.progress ≤ pollProgress e
  download_pr : s.pc = PC.awaitDownload → s.progress = 80
  completed_state : s.status = JobStatus.completed →
    s.pc = PC.idle ∧ s.inQueue = false ∧ s.resultPath.isSome = true ∧
      s.cancelPending = false
  result_completed : s.resultPath.isSome = true → s.status = JobStatus.completed
  retrydelay_failed : s.pc = PC.retryDelay → s.status = JobStatus.failed

theorem pollProgress_mono {e e' : Nat} (h : e ≤ e') :
    pollProgress e ≤ pollProgress e' := by
  unfold pollProgress
  have he : (e : ℚ) ≤ (e' : ℚ) := by exact_mod_cast h
  gcongr

theorem pollProgress_le_80 (e : Nat) : pollProgress e ≤ 80 := by
  unfold pollProgress
  have h : min (30 : ℚ) ((e : ℚ) / 300 * 30) ≤ 30 := min_le_left _ _
  linarith

theorem le_pollProgress (e : Nat) : 50 ≤ pollProgress e := by
  unfold pollProgress
  have h0 : (0 : ℚ) ≤ (e : ℚ) / 300 * 30 := by positivity
  have h : (0 : ℚ) ≤ min 30 ((e : ℚ) / 300 * 30) := le_min (by norm_num) h0
  linarith

theorem inv_init (m : Nat) : Inv m initialJob := by
  constructor <;> intros <;> simp_all [initialJob]

theorem inv_failTransition {m : Nat} {s : JobState} (hI : Inv m s)
    (hpc : s.pc ≠ PC.idle) (hcp : s.cancelPending = false) (msg : String) :
    Inv m (failTransition m msg s) := by
  have hres : s.resultPath.isSome = false := by
    cases hr : s.resultPath.isSome
    · rfl
    · exact absurd (hI.completed_state (hI.result_completed hr)).1 hpc
  unfold failTransition
  dsimp only
  split
  · constructor <;> intros <;> simp_all
    · omega
    · exact absurd (hI.queue_idle (by assumption)) hpc
  · constructor <;> intros <;> simp_all
    exact hI.retry_le

theorem inv_cancelStep {m : Nat} {s : JobState} (hI : Inv m s) :
    Inv m (cancelStep s) := by
  have hres : s.status.isCancellable = true → s.resultPath.isSome = false := by
    intro hcan
    cases hr : s.resultPath.isSome
    · rfl
    · rw [hI.result_completed hr] at hcan
      simp [JobStatus.isCancellable] at hcan
  have hrd : s.status.isCancellable = true → s.pc ≠ PC.retryDelay := by
    intro hcan hd
    rw [hI.retrydelay_failed hd] at hcan
    simp [JobStatus.isCancellable] at hcan
  unfold cancelStep
  dsimp only
  split
  · rename_i hcan
    split
    · exact
        { retry_le := hI.retry_le
          queue_idle := hI.queue_idle
          pending_not_idle := hI.pending_not_idle
          upload_pr := hI.upload_pr
          submit_pr := hI.submit_pr
          poll_pr := hI.poll_pr
          download_pr := hI.download_pr
          completed_state := fun h => by simp at h
          result_completed := fun h => by rw [hres hcan] at h; cases h
          retrydelay_failed := fun h => absurd h (hrd hcan) }
    · split
      · exact
          { retry_le := hI.retry_le
            queue_idle := hI.queue_idle
            pending_not_idle := hI.pending_not_idle
            upload_pr := hI.upload_pr
            submit_pr := hI.submit_pr
            poll_pr := hI.poll_pr
            download_pr := hI.download_pr
            completed_state := fun h => by simp at h
            result_completed := fun h => by rw [hres hcan] at h; cases h
            retrydelay_failed := fun h => absurd h (hrd hcan) }
      · rename_i hne
        exact
          { retry_le := hI.retry_le
            queue_idle := hI.queue_idle
            pending_not_idle := fun _ => hne
            upload_pr := hI.upload_pr
            submit_pr := hI.submit_pr
            poll_pr := hI.poll_pr
            download_pr := hI.download_pr
            completed_state := fun h => by simp at h
            result_completed := fun h => by rw [hres hcan] at h; cases h
            retrydelay_failed := fun h => absurd h (hrd hcan) }
  · exact hI

theorem inv_step {m : Nat} {s s' : JobState} (hI : Inv m s)
    (h : Step m s s') : Inv m s' := by
  obtain ⟨a, ha⟩ := h
  cases a with
  | dequeue =>
      simp only [step] at ha
      split at ha
      · rename_i hc
        injection ha with ha
        subst ha
        exact ⟨hI.retry_le,
          fun h => by simp at h,
          fun _ => by simp,
          fun h => by simp at h,
          fun h => by simp at h,
          fun e h => by simp at h,
          fun h => by simp at h,
          fun hcomp => by
            have h2 := (hI.completed_state hcomp).2.1
            rw [hc.1] at h2
            simp at h2,
          fun h => hI.result_completed h,
          fun h => by simp at h⟩
      · simp at ha
  | beginProcess =>
      simp only [step] at ha
      split at ha
      · rename_i hc
        injection ha with ha
        subst ha
        exact ⟨hI.retry_le,
          fun h => absurd (hI.queue_idle h) (by rw [hc.1]; simp),
          fun _ => by simp,
          fun _ => by simp,
          fun h => by simp at h,
          fun e h => by simp at h,
          fun h => by simp at h,
          fun hcomp => by simp at hcomp,
          fun h => by
            have h2 := (hI.completed_state (hI.result_completed h)).1
            rw [hc.1] at h2
            simp at h2,
          fun h => by simp at h⟩
      · simp at ha
  | uploadOk =>
      simp only [step] at ha
      split at ha
      · rename_i hc
        injection ha with ha
        subst ha
        exact ⟨hI.retry_le,
          fun h => absurd (hI.queue_idle h) (by rw [hc.1]; simp),
          fun _ => by simp,
          fun h => by simp at h,
          fun _ => by simp,
          fun e h => by simp at h,
          fun h => by simp at h,
          fun hcomp => by simp at hcomp,
          fun h => by
            have h2 := (hI.completed_state (hI.result_completed h)).1
            rw [hc.1] at h2
            simp at h2,
          fun h => by simp at h⟩
      · simp at ha
  | uploadFail msg =>
      simp only [step] at ha
      split at ha
      · rename_i hc
        injection ha with ha
        subst ha
        exact inv_failTransition hI (by rw [hc.1]; simp) hc.2 msg
      · simp at ha
  | submitOk pid =>
      simp only [step] at ha
      split at ha
      · rename_i hc
        injection ha with ha
        subst ha
        exact ⟨hI.retry_le,
          fun h => absurd (hI.queue_idle h) (by rw [hc.1]; simp),
          fun _ => by simp,
          fun h => by simp at h,
          fun h => by simp at h,
          fun e h => by
            simp at h
            subst h
            exact le_pollProgress 0,
          fun h => by simp at h,
          fun hcomp => by
            have h2 := (hI.completed_state hcomp).1
            rw [hc.1] at h2
            simp at h2,
          fun h => by
            have h2 := (hI.completed_state (hI.result_completed h)).1
            rw [hc.1] at h2
            simp at h2,
          fun h => by simp at h⟩
      · simp at ha
  | submitFail msg =>
      simp only [step] at ha
      split at ha
      · rename_i hc
        injection ha with ha
        subst ha
        exact inv_failTransition hI (by rw [hc.1]; simp) hc.2 msg
      · simp at ha
  | pollContinue =>
      simp only [step] at ha
      split at ha
      · rename_i e heq
        split at ha
        · rename_i hc
          injection ha with ha
          subst ha
          exact ⟨hI.retry_le,
            fun h => absurd (hI.queue_idle h) (by rw [heq]; simp),
            fun _ => by simp,
            fun h => by simp at h,
            fun h => by simp at h,
            fun e' h => by
              simp at h
              subst h
              exact pollProgress_mono (Nat.le_add_right e 2),
            fun h => by simp at h,
            fun hcomp => absurd (hI.completed_state hcomp).1 (by rw [heq]; simp),
            fun h => by
              have h2 := (hI.completed_state (hI.result_completed h)).1
              rw [heq] at h2
              simp at h2,
            fun h => by simp at h⟩
        · simp at ha
      · simp at ha
  | pollDone =>
      simp only [step] at ha
      split at ha
      · rename_i e heq
        split at ha
        · rename_i hc
          injection ha with ha
          subst ha
          exact ⟨hI.retry_le,
            fun h => absurd (hI.queue_idle h) (by rw [heq]; simp),
            fun _ => by simp,
            fun h => by simp at h,
            fun h => by simp at h,
            fun e' h => by simp at h,
            fun _ => by simp,
            fun hcomp => absurd (hI.completed_state hcomp).1 (by rw [heq]; simp),
            fun h => by
              have h2 := (hI.completed_state (hI.result_completed h)).1
              rw [heq] at h2
              simp at h2,
            fun h => by simp at h⟩
        · simp at ha
      · simp at ha
  | pollTimeout =>
      simp only [step] at ha
      split at ha
      · rename_i e heq
        split at ha
        · rename_i hc
          injection ha with ha
          subst ha
          have hmid : Inv m { s with progress := pollProgress e } :=
            ⟨hI.retry_le, hI.queue_idle, hI.pending_not_idle,
              fun h => by simp [heq] at h,
              fun h => by simp [heq] at h,
              fun e' h => by
                simp [heq] at h
                subst h
                exact le_refl _,
              fun h => by simp [heq] at h,
              fun hcomp => absurd (hI.completed_state hcomp).1 (by rw [heq]; simp),
              fun h => by
                have h2 := (hI.completed_state (hI.result_completed h)).1
                rw [heq] at h2
                simp at h2,
              fun h => by simp [heq] at h⟩
          exact inv_failTransition hmid (by simp [heq]) hc.2 _
        · simp at ha
      · simp at ha
  | downloadOk path =>
      simp only [step] at ha
      split at ha
      · rename_i hc
        injection ha with ha
        subst ha
        have hq : s.inQueue = false := by
          cases hq : s.inQueue
          · rfl
          · exact absurd (hI.queue_idle hq) (by rw [hc.1]; simp)
        exact ⟨hI.retry_le,
          fun _ => rfl,
          fun h => by rw [hc.2] at h; simp at h,
          fun h => by simp at h,
          fun h => by simp at h,
          fun e h => by simp at h,
          fun h => by simp at h,
          fun _ => ⟨rfl, hq, rfl, hc.2⟩,
          fun _ => rfl,
          fun h => by simp at h⟩
      · simp at ha
  | downloadFail msg =>
      simp only [step] at ha
      split at ha
      · rename_i hc
        injection ha with ha
        subst ha
        exact inv_failTransition hI (by rw [hc.1]; simp) hc.2 msg
      · simp at ha
  | requeue =>
      simp only [step] at ha
      split at ha
      · rename_i hc
        injection ha with ha
        subst ha
        exact ⟨hI.retry_le,
          fun _ => rfl,
          fun h => by rw [hc.2] at h; simp at h,
          fun h => by simp at h,
          fun h => by simp at h,
          fun e h => by simp at h,
          fun h => by simp at h,
          fun hcomp => absurd (hI.completed_state hcomp).1 (by rw [hc.1]; simp),
          fun h => by
            have h2 := (hI.completed_state (hI.result_completed h)).1
            rw [hc.1] at h2
            simp at h2,
          fun h => by simp at h⟩
      · simp at ha
  | cancelRequest =>
      simp only [step] at ha
      injection ha with ha
      subst ha
      exact inv_cancelStep hI
  | cancelBackendDone =>
      simp only [step] at ha
      split at ha
      · rename_i hc
        split at ha
        · rename_i hidle
          injection ha with ha
          subst ha
          exact ⟨hI.retry_le, hI.queue_idle, hI.pending_not_idle,
            hI.upload_pr, hI.submit_pr, hI.poll_pr, hI.download_pr,
            fun hcomp => hI.completed_state hcomp,
            fun h => hI.result_completed h,
            fun h => hI.retrydelay_failed h⟩
        · rename_i hnidle
          injection ha with ha
          subst ha
          exact ⟨hI.retry_le, hI.queue_idle,
            fun _ => hnidle,
            hI.upload_pr, hI.submit_pr, hI.poll_pr, hI.download_pr,
            fun hcomp => absurd (hI.completed_state hcomp).1 hnidle,
            fun h => hI.result_completed h,
            fun h => hI.retrydelay_failed h⟩
      · simp at ha
  | cancelDeliver =>
      simp only [step] at ha
      split at ha
      · rename_i hc
        injection ha with ha
        subst ha
        exact ⟨hI.retry_le,
          fun _ => rfl,
          fun h => by simp at h,
          fun h => by simp at h,
          fun h => by simp at h,
          fun e h => by simp at h,
          fun h => by simp at h,
          fun hcomp => ⟨rfl, (hI.completed_state hcomp).2.1,
            (hI.completed_state hcomp).2.2.1, rfl⟩,
          fun h => hI.result_completed h,
          fun h => by simp at h⟩
      · simp at ha

theorem reachable_inv {m : Nat} {s : JobState} (h : Reachable m s) : Inv m s := by
  induction h with
  | refl => exact inv_init m
  | tail _ hstep ih => exact inv_step ih hstep

theorem reach_aState1 : Reachable 3 aState1 :=
  Relation.ReflTransGen.refl.tail ⟨Action.dequeue, by decide⟩

theorem reach_aState2 : Reachable 3 aState2 :=
  reach_aState1.tail ⟨Action.beginProcess, by decide⟩

theorem reach_aState3 : Reachable 3 aState3 :=
  reach_aState2.tail ⟨Action.uploadFail "boom", by decide⟩

theorem reach_aState4 : Reachable 3 aState4 :=
  reach_aState3.tail ⟨Action.requeue, by decide⟩

theorem reach_aState5 : Reachable 3 aState5 :=
  reach_aState4.tail ⟨Action.dequeue, by decide⟩

theorem reach_aState6 : Reachable 3 aState6 :=
  reach_aState5.tail ⟨Action.beginProcess, by decide⟩

theorem reach_aState7 : Reachable 3 aState7 :=
  reach_aState6.tail ⟨Action.uploadFail "boom", by decide⟩

theorem reach_aState8 : Reachable 3 aState8 :=
  reach_aState7.tail ⟨Action.requeue, by decide⟩

theorem reach_aState9 : Reachable 3 aState9 :=
  reach_aState8.tail ⟨Action.dequeue, by decide⟩

theorem reach_aState10 : Reachable 3 aState10 :=
  reach_aState9.tail ⟨Action.beginProcess, by decide⟩

theorem reach_aState11 : Reachable 3 aState11 :=
  reach_aState10.tail ⟨Action.uploadFail "boom", by decide⟩

theorem reach_aState12 : Reachable 3 aState12 :=
  reach_aState11.tail ⟨Action.requeue, by decide⟩

theorem reach_aState13 : Reachable 3 aState13 :=
  reach_aState12.tail ⟨Action.dequeue, by decide⟩

theorem reach_aState14 : Reachable 3 aState14 :=
  reach_aState13.tail ⟨Action.beginProcess, by decide⟩

theorem reach_aState15 : Reachable 3 aState15 :=
  reach_aState14.tail ⟨Action.uploadFail "boom", by decide⟩

theorem reach_bState3 : Reachable 3 bState3 :=
  reach_aState2.tail ⟨Action.uploadOk, by decide⟩

theorem reach_bState4 : Reachable 3 bState4 :=
  reach_bState3.tail ⟨Action.submitFail "sub", by decide⟩

theorem reach_bState5 : Reachable 3 bState5 :=
  reach_bState4.tail ⟨Action.requeue, by decide⟩

theorem reach_bState6 : Reachable 3 bState6 :=
  reach_bState5.tail ⟨Action.dequeue, by decide⟩

theorem reach_bState7 : Reachable 3 bState7 :=
  reach_bState6.tail ⟨Action.beginProcess, by decide⟩

theorem reach_bState8 : Reachable 3 bState8 :=
  reach_bState7.tail ⟨Action.uploadOk, by decide⟩

theorem reach_bState9 : Reachable 3 bState9 :=
  reach_bState8.tail ⟨Action.submitOk "p1", by decide⟩

theorem reach_bState10 : Reachable 3 bState10 :=
  reach_bState9.tail ⟨Action.pollDone, by decide⟩

theorem reach_bState11 : Reachable 3 bState11 :=
  reach_bState10.tail ⟨Action.downloadOk "out.mp4", by decide⟩

theorem failTransition_progress (m : Nat) (msg : String) (s : JobState) :
    (failTransition m msg s).progress = s.progress := by
  unfold failTransition
  dsimp only
  split <;> rfl

theorem failTransition_errorMessage (m : Nat) (msg : String) (s : JobState) :
    (failTransition m msg s).errorMessage = some msg := by
  unfold failTransition
  dsimp only
  split <;> rfl

theorem cancelStep_progress (s : JobState) :
    (cancelStep s).progress = s.progress := by
  unfold cancelStep
  dsimp only
  split
  · split
    · rfl
    · split <;> rfl
  · rfl

theorem cancelStep_errorMessage (s : JobState) :
    (cancelStep s).errorMessage = s.errorMessage := by
  unfold cancelStep
  dsimp only
  split
  · split
    · rfl
    · split <;> rfl
  · rfl

theorem lookupJob_setJobStatus (jobs : List (String × JobStatus))
    (jobId : String) (st st0 : JobStatus)
    (h : lookupJob jobs jobId = some st0) :
    lookupJob (setJobStatus jobs jobId st) jobId = some st := by
  induction jobs with
  | nil => simp [lookupJob] at h
  | cons p rest ih =>
      by_cases hp : (p.fst == jobId) = true
      · simp [lookupJob, setJobStatus, List.find?, hp]
      · simp only [lookupJob, setJobStatus, List.map_cons, List.find?] at *
        rw [if_neg hp]
        simp only [hp] at *
        exact ih h

/-- Claim C1 counterexample: the status does transition out of a terminal
state. After the first failed attempt the job has the terminal status
Failed (aState5, reachable); the step that starts the retry attempt
changes the status to the non-terminal Uploading. -/
theorem c1_counterexample_terminal_state_exited :
    Reachable 3 aState5 ∧ aState5.status = JobStatus.failed ∧
    aState5.status.isTerminal = true ∧ Step 3 aState5 aState6 ∧
    aState6.status = JobStatus.uploading ∧
    aState6.status.isTerminal = false :=
  ⟨reach_aState5, by decide, by decide, ⟨Action.beginProcess, by decide⟩,
   by decide, by decide⟩

/-- Claim C1 (amended): only Completed is absorbing. For every reachable
state whose status is Completed, no step of the system changes the
status. (Failed with retries remaining is left again by the next attempt,
and a Cancelled job whose identifier is still queued is re-processed, so
neither Failed nor Cancelled is absorbing in the code.) -/
theorem c1_completed_status_absorbing (m : Nat) {s s' : JobState}
    (hr : Reachable m s) (hc : s.status = JobStatus.completed)
    (h : Step m s s') : s'.status = JobStatus.completed := by
  have hI := reachable_inv hr
  obtain ⟨hidle, hqf, hres, hcp⟩ := hI.completed_state hc
  obtain ⟨a, ha⟩ := h
  cases a with
  | dequeue =>
      simp only [step] at ha
      split at ha
      · rename_i hcnd
        rw [hqf] at hcnd
        simp at hcnd
      · simp at ha
  | beginProcess =>
      simp only [step] at ha
      split at ha
      · rename_i hcnd
        rw [hidle] at hcnd
        simp at hcnd
      · simp at ha
  | uploadOk =>
      simp only [step] at ha
      split at ha
      · rename_i hcnd
        rw [hidle] at hcnd
        simp at hcnd
      · simp at ha
  | uploadFail msg =>
      simp only [step] at ha
      split at ha
      · rename_i hcnd
        rw [hidle] at hcnd
        simp at hcnd
      · simp at ha
  | submitOk pid =>
      simp only [step] at ha
      split at ha
      · rename_i hcnd
        rw [hidle] at hcnd
        simp at hcnd
      · simp at ha
  | submitFail msg =>
      simp only [step] at ha
      split at ha
      · rename_i hcnd
        rw [hidle] at hcnd
        simp at hcnd
      · simp at ha
  | pollContinue =>
      simp only [step] at ha
      split at ha
      · rename_i e heq
        rw [hidle] at heq
        simp at heq
      · simp at ha
  | pollDone =>
      simp only [step] at ha
      split at ha
      · rename_i e heq
        rw [hidle] at heq
        simp at heq
      · simp at ha
  | pollTimeout =>
      simp only [step] at ha
      split at ha
      · rename_i e heq
        rw [hidle] at heq
        simp at heq
      · simp at ha
  | downloadOk path =>
      simp only [step] at ha
      split at ha
      · rename_i hcnd
        rw [hidle] at hcnd
        simp at hcnd
      · simp at ha
  | downloadFail msg =>
      simp only [step] at ha
      split at ha
      · rename_i hcnd
        rw [hidle] at hcnd
        simp at hcnd
      · simp at ha
  | requeue =>
      simp only [step] at ha
      split at ha
      · rename_i hcnd
        rw [hidle] at hcnd
        simp at hcnd
      · simp at ha
  | cancelRequest =>
      simp only [step] at ha
      injection ha with ha
      subst ha
      simp [cancelStep, hc, JobStatus.isCancellable]
  | cancelBackendDone =>
      simp only [step] at ha
      split at ha
      · injection ha with ha
        subst ha
        exact hc
      · simp at ha
  | cancelDeliver =>
      simp only [step] at ha
      split at ha
      · rename_i hcnd
        rw [hcp] at hcnd
        simp at hcnd
      · simp at ha

/-- Claim C1 witness: the absorbing theorem applied to the reachable
completed state bState11 and the always-enabled cancel-request step
(which leaves a completed job unchanged). -/
theorem c1_witness : bState11.status = JobStatus.completed :=
  c1_completed_status_absorbing 3 reach_bState11 (by decide)
    ⟨Action.cancelRequest, by decide⟩

/-- Claim C2: retry_count never exceeds max_retries in any reachable
state, and in the concrete always-failing-upload run with max_retries = 3
the pipeline is started exactly 4 times, the final status is Failed,
retry_count is 3 and the identifier is not re-enqueued (not in the queue,
no coroutine alive). -/
theorem c2_retry_bound_and_always_fail_scenario :
    (∀ (m : Nat) (s : JobState), Reachable m s → s.retryCount ≤ m) ∧
    (Reachable 3 aState15 ∧ aState15.status = JobStatus.failed ∧
      aState15.retryCount = 3 ∧ aState15.attempts = 4 ∧
      aState15.inQueue = false ∧ aState15.pc = PC.idle) :=
  ⟨fun _ _ hr => (reachable_inv hr).retry_le,
   ⟨reach_aState15, by decide, by decide, by decide, by decide, by decide⟩⟩

/-- Claim C2 witness: the bound applied to the reachable final state of
the always-failing run. -/
theorem c2_witness : aState15.retryCount ≤ 3 :=
  c2_retry_bound_and_always_fail_scenario.1 3 aState15 reach_aState15

/-- Claim C3 counterexample: progress is reset to a lower value across a
retry. In the reachable state bState6 the job carries progress 40 from
the failed first attempt; the step that begins attempt 2 produces the
non-terminal state bState7 with progress 10 < 40. -/
theorem c3_counterexample_progress_reset :
    Reachable 3 bState6 ∧ Step 3 bState6 bState7 ∧
    bState7.status.isTerminal = false ∧ bState7.progress < bState6.progress :=
  ⟨reach_bState6, ⟨Action.beginProcess, by decide⟩, by decide, by decide⟩

/-- Claim C3 (amended): progress is non-decreasing at every step except
the step that begins a pipeline attempt (the transition out of PC.created,
which writes 10 regardless of the previous value); in particular progress
never decreases within a single pipeline attempt. -/
theorem c3_progress_monotone_within_attempt (m : Nat) {s s' : JobState}
    (hr : Reachable m s) (h : Step m s s') (hpc : s.pc ≠ PC.created) :
    s.progress ≤ s'.progress := by
  have hI := reachable_inv hr
  obtain ⟨a, ha⟩ := h
  cases a with
  | dequeue =>
      simp only [step] at ha
      split at ha
      · injection ha with ha
        subst ha
        exact le_refl _
      · simp at ha
  | beginProcess =>
      simp only [step] at ha
      split at ha
      · rename_i hcnd
        exact absurd hcnd.1 hpc
      · simp at ha
  | uploadOk =>
      simp only [step] at ha
      split at ha
      · rename_i hcnd
        injection ha with ha
        subst ha
        rw [hI.upload_pr hcnd.1]
        norm_num
      · simp at ha
  | uploadFail msg =>
      simp only [step] at ha
      split at ha
      · injection ha with ha
        subst ha
        rw [failTransition_progress]
      · simp at ha
  | submitOk pid =>
      simp only [step] at ha
      split at ha
      · rename_i hcnd
        injection ha with ha
        subst ha
        rw [hI.submit_pr hcnd.1]
        norm_num
      · simp at ha
  | submitFail msg =>
      simp only [step] at ha
      split at ha
      · injection ha with ha
        subst ha
        rw [failTransition_progress]
      · simp at ha
  | pollContinue =>
      simp only [step] at ha
      split at ha
      · rename_i e heq
        split at ha
        · injection ha with ha
          subst ha
          exact hI.poll_pr e heq
        · simp at ha
      · simp at ha
  | pollDone =>
      simp only [step] at ha
      split at ha
      · rename_i e heq
        split at ha
        · injection ha with ha
          subst ha
          exact (hI.poll_pr e heq).trans (pollProgress_le_80 e)
        · simp at ha
      · simp at ha
  | pollTimeout =>
      simp only [step] at ha
      split at ha
      · rename_i e heq
        split at ha
        · injection ha with ha
          subst ha
          rw [failTransition_progress]
          exact hI.poll_pr e heq
        · simp at ha
      · simp at ha
  | downloadOk path =>
      simp only [step] at ha
      split at ha
      · rename_i hcnd
        injection ha with ha
        subst ha
        rw [hI.download_pr hcnd.1]
        norm_num
      · simp at ha
  | downloadFail msg =>
      simp only [step] at ha
      split at ha
      · injection ha with ha
        subst ha
        rw [failTransition_progress]
      · simp at ha
  | requeue =>
      simp only [step] at ha
      split at ha
      · injection ha with ha
        subst ha
        exact le_refl _
      · simp at ha
  | cancelRequest =>
      simp only [step] at ha
      injection ha with ha
      subst ha
      rw [cancelStep_progress]
  | cancelBackendDone =>
      simp only [step] at ha
      split at ha
      · split at ha
        · injection ha with ha
          subst ha
          exact le_refl _
        · injection ha with ha
          subst ha
          exact le_refl _
      · simp at ha
  | cancelDeliver =>
      simp only [step] at ha
      split at ha
      · injection ha with ha
        subst ha
        exact le_refl _
      · simp at ha

/-- Claim C3 witness: the within-attempt monotonicity applied to the
dequeue step out of the initial state. -/
theorem c3_witness : initialJob.progress ≤ aState1.progress :=
  c3_progress_monotone_within_attempt 3 Relation.ReflTransGen.refl
    ⟨Action.dequeue, by decide⟩ (by decide)

/-- Claim C4 counterexample: the worker loop does terminate on one
outcome. When the processing task of the dequeued job is cancelled,
awaiting it raises CancelledError, which neither except-Exception handler
of _worker catches, so the while loop exits instead of continuing. -/
theorem c4_counterexample_worker_terminates_on_cancel :
    workerIteration true TaskOutcome.cancelledErr = WorkerNext.terminated ∧
    workerIteration true TaskOutcome.cancelledErr ≠ WorkerNext.nextIteration := by
  decide

/-- Claim C4 (amended): the worker loop proceeds to the next dequeue
after a normally completed task, after any ordinary exception raised
during processing, and after an identifier that is missing from the job
store (which is skipped silently); only cancellation of the in-flight
task terminates the loop. -/
theorem c4_worker_loop_survives_non_cancellation :
    (∀ msg, workerIteration true (TaskOutcome.error msg) = WorkerNext.nextIteration) ∧
    workerIteration true TaskOutcome.ok = WorkerNext.nextIteration ∧
    (∀ outcome, workerIteration false outcome = WorkerNext.nextIteration) :=
  ⟨fun _ => rfl, rfl, fun _ => rfl⟩

/-- Claim C5 counterexample: a cancellation request arriving while the
job waits out the retry delay (reachable state aState3, status Failed)
does not succeed — cancel_job returns False and changes nothing — and the
identifier is re-enqueued by the following requeue step anyway. -/
theorem c5_counterexample_cancel_during_retry_delay :
    Reachable 3 aState3 ∧ aState3.pc = PC.retryDelay ∧
    cancelResult aState3 = false ∧ cancelStep aState3 = aState3 ∧
    step 3 aState3 Action.requeue = some aState4 ∧ aState4.inQueue = true :=
  ⟨reach_aState3, by decide, by decide, by decide, by decide, by decide⟩

/-- Claim C5 (amended): in every reachable state suspended in the retry
delay the status is Failed, so a cancellation request returns False and
leaves the state unchanged; unless an earlier task cancellation is
pending, the requeue step then puts the identifier back on the queue. -/
theorem c5_cancel_in_retry_delay_fails_and_requeues (m : Nat)
    {s : JobState} (hr : Reachable m s) (hd : s.pc = PC.retryDelay)
    (hcp : s.cancelPending = false) :
    s.status = JobStatus.failed ∧ cancelResult s = false ∧
    cancelStep s = s ∧
    step m s Action.requeue = some { s with pc := PC.idle, inQueue := true } := by
  have hI := reachable_inv hr
  have hf := hI.retrydelay_failed hd
  refine ⟨hf, ?_, ?_, ?_⟩
  · unfold cancelResult
    rw [hf]
    decide
  · unfold cancelStep
    rw [hf]
    simp [JobStatus.isCancellable]
  · simp [step, hd, hcp]

/-- Claim C5 witness: the amended theorem applied to the concrete
reachable retry-delay state aState3. -/
theorem c5_witness :
    aState3.status = JobStatus.failed ∧ cancelResult aState3 = false ∧
    cancelStep aState3 = aState3 ∧
    step 3 aState3 Action.requeue =
      some { aState3 with pc := PC.idle, inQueue := true } :=
  c5_cancel_in_retry_delay_fails_and_requeues 3 reach_aState3 (by decide)
    (by decide)

/-- Claim C6 counterexample: cancelling an already-terminal job and
cancelling an unknown identifier produce the same single HTTP 404 error,
not two distinct errors. -/
theorem c6_counterexample_same_error_for_terminal_and_missing :
    cancel_job_route [("j", JobStatus.completed)] "j" =
      Except.error (404, "Job not found or cannot be cancelled") ∧
    cancel_job_route ([] : List (String × JobStatus)) "j" =
      Except.error (404, "Job not found or cannot be cancelled") ∧
    cancel_job_route [("j", JobStatus.completed)] "j" =
      cancel_job_route ([] : List (String × JobStatus)) "j" :=
  ⟨by rfl, by rfl, by rfl⟩

/-- Claim C6 (amended): cancelling a job in status Pending, Uploading or
Processing succeeds and leaves it Cancelled; cancelling a job in a
terminal status and cancelling an unknown identifier both fail, and the
route reports the same 404 error in both cases. -/
theorem c6_cancel_route_semantics (jobs : List (String × JobStatus))
    (jobId : String) :
    (∀ st, lookupJob jobs jobId = some st → st.isCancellable = true →
      (cancel_job jobs jobId).fst = true ∧
      lookupJob (cancel_job jobs jobId).snd jobId = some JobStatus.cancelled ∧
      cancel_job_route jobs jobId = Except.ok "cancelled") ∧
    (∀ st, lookupJob jobs jobId = some st → st.isCancellable = false →
      cancel_job_route jobs jobId =
        Except.error (404, "Job not found or cannot be cancelled")) ∧
    (lookupJob jobs jobId = none →
      cancel_job_route jobs jobId =
        Except.error (404, "Job not found or cannot be cancelled")) := by
  refine ⟨?_, ?_, ?_⟩
  · intro st hl hcan
    have hj : cancel_job jobs jobId =
        (true, setJobStatus jobs jobId JobStatus.cancelled) := by
      unfold cancel_job
      rw [hl]
      dsimp only
      rw [if_pos hcan]
    refine ⟨by rw [hj], ?_, ?_⟩
    · rw [hj]
      exact lookupJob_setJobStatus jobs jobId JobStatus.cancelled st hl
    · unfold cancel_job_route
      rw [hj]
      simp
  · intro st hl hcan
    unfold cancel_job_route cancel_job
    rw [hl, if_neg (by simp [hcan])]
  · intro hl
    unfold cancel_job_route cancel_job
    rw [hl]
    simp

/-- Claim C6 witness: the amended semantics applied to a store holding
one pending job. -/
theorem c6_witness :
    (cancel_job [("a", JobStatus.pending)] "a").fst = true ∧
    lookupJob (cancel_job [("a", JobStatus.pending)] "a").snd "a" =
      some JobStatus.cancelled ∧
    cancel_job_route [("a", JobStatus.pending)] "a" = Except.ok "cancelled" :=
  (c6_cancel_route_semantics [("a", JobStatus.pending)] "a").1
    JobStatus.pending (by decide) (by decide)

/-- Claim C7 counterexample: a job that failed its first attempt and then
completed on the retry still carries the error_message of the failed
attempt in its Completed state, because no code path ever clears
error_message. -/
theorem c7_counterexample_error_retained_after_success :
    Reachable 3 bState11 ∧ bState11.status = JobStatus.completed ∧
    bState11.errorMessage = some "sub" :=
  ⟨reach_bState11, by decide, by decide⟩

/-- Claim C7 (amended): error_message is never cleared by any step: once
set it stays set (a later failure may overwrite it with a new message),
including across a successful retry and on terminal failure. -/
theorem c7_error_message_never_cleared (m : Nat) (s : JobState)
    (a : Action) {s' : JobState} (h : step m s a = some s')
    (he : s.errorMessage.isSome = true) : s'.errorMessage.isSome = true := by
  cases a with
  | dequeue =>
      simp only [step] at h
      split at h
      · injection h with h
        subst h
        exact he
      · simp at h
  | beginProcess =>
      simp only [step] at h
      split at h
      · injection h with h
        subst h
        exact he
      · simp at h
  | uploadOk =>
      simp only [step] at h
      split at h
      · injection h with h
        subst h
        exact he
      · simp at h
  | uploadFail msg =>
      simp only [step] at h
      split at h
      · injection h with h
        subst h
        rw [failTransition_errorMessage]
        rfl
      · simp at h
  | submitOk pid =>
      simp only [step] at h
      split at h
      · injection h with h
        subst h
        exact he
      · simp at h
  | submitFail msg =>
      simp only [step] at h
      split at h
      · injection h with h
        subst h
        rw [failTransition_errorMessage]
        rfl
      · simp at h
  | pollContinue =>
      simp only [step] at h
      split at h
      · split at h
        · injection h with h
          subst h
          exact he
        · simp at h
      · simp at h
  | pollDone =>
      simp only [step] at h
      split at h
      · split at h
        · injection h with h
          subst h
          exact he
        · simp at h
      · simp at h
  | pollTimeout =>
      simp only [step] at h
      split at h
      · split at h
        · injection h with h
          subst h
          rw [failTransition_errorMessage]
          rfl
        · simp at h
      · simp at h
  | downloadOk path =>
      simp only [step] at h
      split at h
      · injection h with h
        subst h
        exact he
      · simp at h
  | downloadFail msg =>
      simp only [step] at h
      split at h
      · injection h with h
        subst h
        rw [failTransition_errorMessage]
        rfl
      · simp at h
  | requeue =>
      simp only [step] at h
      split at h
      · injection h with h
        subst h
        exact he
      · simp at h
  | cancelRequest =>
      simp only [step] at h
      injection h with h
      subst h
      rw [cancelStep_errorMessage]
      exact he
  | cancelBackendDone =>
      simp only [step] at h
      split at h
      · split at h
        · injection h with h
          subst h
          exact he
        · injection h with h
          subst h
          exact he
      · simp at h
  | cancelDeliver =>
      simp only [step] at h
      split at h
      · injection h with h
        subst h
        exact he
      · simp at h

/-- Claim C7 witness: the no-clearing theorem applied to the requeue step
out of the failed state bState4, whose error_message is set. -/
theorem c7_witness : bState5.errorMessage.isSome = true :=
  c7_error_message_never_cleared 3 bState4 Action.requeue (by decide)
    (by decide)

/-- Claim C8: in every reachable state, result_path is set if and only if
the status is Completed. -/
theorem c8_result_path_iff_completed (m : Nat) {s : JobState}
    (hr : Reachable m s) :
    s.resultPath.isSome = true ↔ s.status = JobStatus.completed := by
  have hI := reachable_inv hr
  exact ⟨hI.result_completed, fun hc => (hI.completed_state hc).2.2.1⟩

/-- Claim C8 witness: the equivalence applied to the reachable completed
state bState11. -/
theorem c8_witness : bState11.resultPath.isSome = true :=
  (c8_result_path_iff_completed 3 reach_bState11).mpr (by decide)

/-- Claim C9: one cleanup sweep cycle never touches the job registry, a
file is deleted only when its mtime is strictly older than the retention
cutoff, and every file at least as new as the cutoff survives. -/
theorem c9_cleanup_sweep_safety (now cleanupDays : Int) (s : ServerDirs) :
    (cleanupSweep now cleanupDays s).jobs = s.jobs ∧
    (∀ f, f ∈ s.uploadFiles →
      f ∉ (cleanupSweep now cleanupDays s).uploadFiles →
      f.mtime < cleanupCutoff now cleanupDays) ∧
    (∀ f, f ∈ s.outputFiles →
      f ∉ (cleanupSweep now cleanupDays s).outputFiles →
      f.mtime < cleanupCutoff now cleanupDays) ∧
    (∀ f, f ∈ s.uploadFiles → cleanupCutoff now cleanupDays ≤ f.mtime →
      f ∈ (cleanupSweep now cleanupDays s).uploadFiles) ∧
    (∀ f, f ∈ s.outputFiles → cleanupCutoff now cleanupDays ≤ f.mtime →
      f ∈ (cleanupSweep now cleanupDays s).outputFiles) := by
  refine ⟨rfl, ?_, ?_, ?_, ?_⟩
  · intro f hf hnot
    by_contra hlt
    exact hnot (List.mem_filter.mpr ⟨hf, by simp [hlt]⟩)
  · intro f hf hnot
    by_contra hlt
    exact hnot (List.mem_filter.mpr ⟨hf, by simp [hlt]⟩)
  · intro f hf hge
    exact List.mem_filter.mpr ⟨hf, by simp [not_lt.mpr hge]⟩
  · intro f hf hge
    exact List.mem_filter.mpr ⟨hf, by simp [not_lt.mpr hge]⟩

/-- Claim C9 witness: a file newer than the cutoff survives a concrete
sweep, and the job registry is untouched. -/
theorem c9_witness :
    ({ path := "keep.png", mtime := 999999 } : FsFile) ∈
      (cleanupSweep 1000000 7
        { uploadFiles := [{ path := "keep.png", mtime := 999999 }],
          outputFiles := [], jobs := [("a", JobStatus.pending)] }).uploadFiles :=
  (c9_cleanup_sweep_safety 1000000 7
      { uploadFiles := [{ path := "keep.png", mtime := 999999 }],
        outputFiles := [], jobs := [("a", JobStatus.pending)] }).2.2.2.1
    { path := "keep.png", mtime := 999999 } (by decide) (by decide)

/-- Claim C10: the workflow dictionary submitted to the backend does not
depend on the template-file check, the clock, the uploaded image filename
or any field of the configuration: _generate_workflow always returns the
fixed default workflow. -/
theorem c10_workflow_independent_of_inputs (ex1 ex2 : Bool) (t1 t2 : Nat)
    (name1 name2 : String) (cfg1 cfg2 : WorkflowConfig) :
    generate_workflow ex1 t1 name1 cfg1 = generate_workflow ex2 t2 name2 cfg2 ∧
    generate_workflow ex1 t1 name1 cfg1 = get_default_workflow := by
  constructor <;> simp [generate_workflow, ite_self]

end VideoWorkflow
